import Mathlib

/-!
Verification of the risk scoring engine of the smart_upi_fraud_detection
repository.

The engine consists of two pure functions:

* calculateRiskScore (src/frontend/src/app/page.js lines 62-114, and the
  identical copy in src/unnamed/part_001 lines 53-100): maps one transaction
  to a score, a level, a colorClass and a factors string.
* the aggregation performed by RiskSummaryCard
  (src/frontend/src/components/RiskSummaryCard.js lines 4-17, and the
  identical copies in page.js lines 146-175): counts High/Medium assessments,
  computes safePercentage = Math.round(((total - high) / total) * 100) and
  selects the alert presentation iff highRiskCount > 0.  Its early return
  (null when the list is empty or missing) is modelled by Option.

JavaScript numbers are IEEE-754 binary64.  Small integer arithmetic (rule
contributions, clamps, counts, the subtraction total - high of counts below
2^53) is exact in binary64 and is modelled as exact Int/Nat arithmetic.  The
two inexact operations — the division and the multiplication in
safePercentage — are modelled exactly: each result is the exact rational
rounded to 53 significant bits with ties to even (roundBinary64 below),
which is binary64 round-to-nearest in the normal range (the values here lie
in [0, 100], far from overflow and subnormals).  Math.round(x) returns the
integer nearest to the exact value of the double x, half-way cases toward
positive infinity (ECMA-262), modelled by jsMathRound.
-/

/-- A transaction record as consumed by calculateRiskScore.  The source also
carries date/time strings used only for display; the scorer reads amount,
type, isNewBeneficiary and isLateNight.  The type field is a String because
the source compares it to the string "Debit". -/
structure Transaction where
  id : String
  amount : Int
  type : String
  beneficiary : String
  isNewBeneficiary : Bool
  isLateNight : Bool
deriving Repr, DecidableEq

/-- The late-night flag derivation from a local hour,
page.js line 39 and part_001 line 33:
date.getHours() greater-or-equal 23, or less-or-equal 5. -/
def isLateNightOfHour (h : Nat) : Bool :=
  decide (23 ≤ h) || decide (h ≤ 5)

/-- The object returned by calculateRiskScore (page.js lines 108-113). -/
structure RiskResult where
  score : Int
  level : String
  colorClass : String
  factors : String
deriving Repr, DecidableEq

/-- The sequential score/factor accumulation of calculateRiskScore before the
clamp, page.js lines 63-90: amount tier, then new beneficiary, then late
night, then the silent Debit bump (a score contribution with no factor
label). -/
def scoreAndFactors (t : Transaction) : Int × List String :=
  let score : Int := 0
  let factors : List String := []
  let sf :=
    if t.amount > 15000 then (score + 35, factors ++ ["Large Amount (High)"])
    else if t.amount > 5000 then (score + 15, factors ++ ["Large Amount (Medium)"])
    else (score, factors)
  let sf :=
    if t.isNewBeneficiary then (sf.1 + 40, sf.2 ++ ["New/Untrusted Beneficiary"])
    else sf
  let sf :=
    if t.isLateNight then (sf.1 + 20, sf.2 ++ ["Unusual Transaction Time (Late Night)"])
    else sf
  if t.type = "Debit" then (sf.1 + 5, sf.2) else sf

/-- The level/colorClass selection from the clamped score,
page.js lines 95-106. -/
def levelAndColor (score : Int) : String × String :=
  if score > 65 then ("High", "badge badge-high")
  else if score > 30 then ("Medium", "badge badge-medium")
  else ("Low", "badge badge-low")

/-- Shallow embedding of calculateRiskScore, page.js lines 62-114:
accumulate rule contributions, clamp at 100, derive level and colorClass,
and render factors as a comma-joined string with the "Standard Behavior"
sentinel when no labelled rule fired. -/
def calculateRiskScore (t : Transaction) : RiskResult :=
  let sf := scoreAndFactors t
  let score := min sf.1 100
  let lc := levelAndColor score
  { score := score
    level := lc.1
    colorClass := lc.2
    factors :=
      if 0 < sf.2.length then String.intercalate ", " sf.2
      else "Standard Behavior" }

/-- An assessed transaction: the raw record together with its risk object,
as built by the dashboard (page.js lines 297-300). -/
structure AssessedTransaction where
  tx : Transaction
  risk : RiskResult
deriving Repr, DecidableEq

/-- Batch assessment, page.js lines 297-300: the scorer applied record by
record over the whole batch. -/
def processTransactions (ts : List Transaction) : List AssessedTransaction :=
  ts.map (fun txn => { tx := txn, risk := calculateRiskScore txn })

/-- The summary values computed by RiskSummaryCard for a non-empty batch:
totalTransactions, highRiskCount, mediumRiskCount, safePercentage, and the
highRiskCount > 0 branch that selects the ALERT presentation. -/
structure RiskSummary where
  totalCount : Nat
  highCount : Nat
  mediumCount : Nat
  safePercentage : Int
  alert : Bool
deriving Repr, DecidableEq

/-- Round a rational to the nearest integer, ties to even: the rounding
IEEE-754 applies to the scaled significand. -/
def roundHalfEven (q : Rat) : Int :=
  let f := Int.floor q
  let r := q - f
  if r < 1 / 2 then f
  else if r > 1 / 2 then f + 1
  else if f % 2 = 0 then f else f + 1

/-- Binary64 rounding of a positive rational in the normal range: scale by a
power of two so the value sits in the significand window [2^52, 2^53),
round to the nearest integer with ties to even, and scale back.
Int.log 2 q is the exponent e with 2^e ≤ q < 2^(e+1). -/
def roundBinary64Pos (q : Rat) : Rat :=
  (roundHalfEven (q * 2 ^ ((52 : Int) - Int.log 2 q)) : Rat)
    * 2 ^ (Int.log 2 q - (52 : Int))

/-- IEEE-754 binary64 round-to-nearest, ties to even, of an exact rational,
for the normal range (sufficient for this program, whose values lie in
[0, 100]). -/
def roundBinary64 (q : Rat) : Rat :=
  if q = 0 then 0
  else if 0 < q then roundBinary64Pos q
  else -roundBinary64Pos (-q)

/-- JavaScript division: the exact quotient rounded to binary64. -/
def jsDiv (a b : Rat) : Rat := roundBinary64 (a / b)

/-- JavaScript multiplication: the exact product rounded to binary64. -/
def jsMul (a b : Rat) : Rat := roundBinary64 (a * b)

/-- JavaScript Math.round on the exact value of a double: the nearest
integer, half-way cases toward positive infinity (ECMA-262), which is the
floor of the exact value plus one half. -/
def jsMathRound (q : Rat) : Int := Int.floor (q + 1 / 2)

/-- The summary data computed by RiskSummaryCard
(RiskSummaryCard.js lines 4-17).  The component returns null when the list
is missing or empty (line 5), modelled as none; otherwise it counts High and
Medium assessments, computes
safePercentage = Math.round(((total - high) / total) * 100)
in binary64 arithmetic — the counts and their subtraction are exact in
binary64, the division and the multiplication each round to binary64 — and
branches on highRiskCount > 0 for the alert message, icon and box style,
recorded here as the alert flag. -/
def summarize (transactions : List AssessedTransaction) : Option RiskSummary :=
  if transactions.length = 0 then none
  else
    let highRiskCount := (transactions.filter (fun t => t.risk.level = "High")).length
    let mediumRiskCount := (transactions.filter (fun t => t.risk.level = "Medium")).length
    let totalTransactions := transactions.length
    let safePercentage : Int :=
      jsMathRound (jsMul
        (jsDiv ((totalTransactions : Rat) - (highRiskCount : Rat)) (totalTransactions : Rat))
        100)
    some
      { totalCount := totalTransactions
        highCount := highRiskCount
        mediumCount := mediumRiskCount
        safePercentage := safePercentage
        alert := decide (0 < highRiskCount) }

/-- Spec-side amount rule (section 4.1 item 1): amount greater than 15000
contributes 35, else greater than 5000 contributes 15, else 0. -/
def specAmountContribution (a : Int) : Int :=
  if a > 15000 then 35 else if a > 5000 then 15 else 0

/-- Spec-side raw rule sum (section 4.1): the four additive contributions in
their fixed order. -/
def specRuleSum (t : Transaction) : Int :=
  specAmountContribution t.amount
    + (if t.isNewBeneficiary then 40 else 0)
    + (if t.isLateNight then 20 else 0)
    + (if t.type = "Debit" then 5 else 0)

/-- Spec-side ordered list of labels of the rules that fired (section 4.1):
amount label, then beneficiary label, then timing label; Debit has none. -/
def specFiredLabels (t : Transaction) : List String :=
  (if t.amount > 15000 then ["Large Amount (High)"]
   else if t.amount > 5000 then ["Large Amount (Medium)"]
   else [])
  ++ (if t.isNewBeneficiary then ["New/Untrusted Beneficiary"] else [])
  ++ (if t.isLateNight then ["Unusual Transaction Time (Late Night)"] else [])

/-- Spec-side rounding convention (section 4.2): round half away from zero. -/
def roundHalfAwayFromZero (q : Rat) : Int :=
  if 0 ≤ q then Int.floor (q + 1 / 2) else Int.ceil (q - 1 / 2)

/-- The end-to-end example transaction of the spec (section 8):
amount 20000, direction Debit, new beneficiary, local hour 2. -/
def exampleHighTx : Transaction :=
  { id := "TXN1"
    amount := 20000
    type := "Debit"
    beneficiary := "NEW_MERCHANT_XYZ@sbi"
    isNewBeneficiary := true
    isLateNight := isLateNightOfHour 2 }

/-- A transaction with a chosen amount and flags, used for boundary tests. -/
def txWithAmount (a : Int) (b l : Bool) (d : String) : Transaction :=
  { id := "TXN0"
    amount := a
    type := d
    beneficiary := "B@bank"
    isNewBeneficiary := b
    isLateNight := l }

/-- A transaction with a negative amount: out of the spec's input domain. -/
def negativeAmountTx : Transaction :=
  { id := "TXNneg"
    amount := -100
    type := "Credit"
    beneficiary := "B@bank"
    isNewBeneficiary := false
    isLateNight := false }

/-- The same record with the amount replaced by 0. -/
def zeroAmountTx : Transaction :=
  { id := "TXNneg"
    amount := 0
    type := "Credit"
    beneficiary := "B@bank"
    isNewBeneficiary := false
    isLateNight := false }

/-- A maximal-score transaction whose beneficiary is not new. -/
def oldBeneficiaryTx : Transaction :=
  { id := "TXNold"
    amount := 20000
    type := "Debit"
    beneficiary := "OldFriendRamesh@axl"
    isNewBeneficiary := false
    isLateNight := true }

/-- A High-level assessed transaction for concrete batch computations. -/
def assessedHigh : AssessedTransaction :=
  { tx := exampleHighTx, risk := calculateRiskScore exampleHighTx }

/-- A Medium-level assessed transaction for concrete batch computations. -/
def assessedMedium : AssessedTransaction :=
  { tx := oldBeneficiaryTx, risk := calculateRiskScore oldBeneficiaryTx }

/-- A Low-level assessed transaction for concrete batch computations. -/
def assessedLow : AssessedTransaction :=
  { tx := zeroAmountTx, risk := calculateRiskScore zeroAmountTx }

/-- The batch example of the spec (section 8): levels High, Low, Medium,
Low, Low. -/
def batchFive : List AssessedTransaction :=
  [assessedHigh, assessedLow, assessedMedium, assessedLow, assessedLow]

/-- The summary the code computes for batchFive. -/
def summaryOfBatchFive : RiskSummary :=
  { totalCount := 5
    highCount := 1
    mediumCount := 1
    safePercentage := 80
    alert := true }

/-- The summary the code computes for the one-element batch [assessedHigh]. -/
def summaryOfOneHigh : RiskSummary :=
  { totalCount := 1
    highCount := 1
    mediumCount := 0
    safePercentage := 0
    alert := true }

/-- A batch of 40 assessments of which 17 are High: the double computation
of safePercentage rounds the other way than the exact convention here. -/
def batchForty : List AssessedTransaction :=
  List.replicate 17 assessedHigh ++ List.replicate 23 assessedLow

/-- The summary the code computes for batchForty: binary64 evaluation of
((40 - 17) / 40) * 100 gives 57.49999999999999289..., so Math.round
returns 57 although the exact value 57.5 rounds away from zero to 58. -/
def summaryOfBatchForty : RiskSummary :=
  { totalCount := 40
    highCount := 17
    mediumCount := 0
    safePercentage := 57
    alert := true }

/-- The sequential accumulation computes exactly the spec-side rule sum and
the spec-side ordered label list. -/
theorem scoreAndFactors_eq (t : Transaction) :
    scoreAndFactors t = (specRuleSum t, specFiredLabels t) := by
  unfold scoreAndFactors specRuleSum specFiredLabels specAmountContribution
  split_ifs <;> simp

/-- The final score of the scorer is the clamped spec-side rule sum. -/
theorem calc_score_eq (t : Transaction) :
    (calculateRiskScore t).score = min (specRuleSum t) 100 := by
  show min (scoreAndFactors t).1 100 = min (specRuleSum t) 100
  rw [scoreAndFactors_eq]

/-- The level of the scorer is levelAndColor of the clamped rule sum. -/
theorem calc_level_eq (t : Transaction) :
    (calculateRiskScore t).level = (levelAndColor (min (specRuleSum t) 100)).1 := by
  show (levelAndColor (min (scoreAndFactors t).1 100)).1 = _
  rw [scoreAndFactors_eq]

/-- The factors string of the scorer, in terms of the spec-side label list. -/
theorem calc_factors_eq (t : Transaction) :
    (calculateRiskScore t).factors =
      if 0 < (specFiredLabels t).length then String.intercalate ", " (specFiredLabels t)
      else "Standard Behavior" := by
  show (if 0 < (scoreAndFactors t).2.length then String.intercalate ", " (scoreAndFactors t).2
        else "Standard Behavior") = _
  rw [scoreAndFactors_eq]

/-- The spec-side rule sum is nonnegative. -/
theorem specRuleSum_nonneg (t : Transaction) : 0 ≤ specRuleSum t := by
  unfold specRuleSum specAmountContribution
  split_ifs <;> omega

/-- Without a new beneficiary the rule sum is at most 60. -/
theorem specRuleSum_le_60 (t : Transaction) (h : t.isNewBeneficiary = false) :
    specRuleSum t ≤ 60 := by
  unfold specRuleSum specAmountContribution
  rw [h]
  split_ifs <;> simp_all

/-- roundHalfEven is within one half of its argument. -/
theorem roundHalfEven_bounds (q : Rat) :
    q - 1 / 2 ≤ (roundHalfEven q : Rat) ∧ (roundHalfEven q : Rat) ≤ q + 1 / 2 := by
  unfold roundHalfEven
  have h1 := Int.floor_le q
  have h2 := Int.lt_floor_add_one q
  dsimp only
  split_ifs <;> constructor <;> push_cast <;> linarith

/-- The binary exponent is determined by the sandwich 2^e ≤ q < 2^(e+1). -/
theorem int_log2_unique (q : Rat) (e : Int)
    (h1 : (2 : Rat) ^ e ≤ q) (h2 : q < (2 : Rat) ^ (e + 1)) :
    Int.log 2 q = e := by
  have hq : 0 < q := lt_of_lt_of_le (zpow_pos (by norm_num) e) h1
  have hl := Int.zpow_log_le_self (R := Rat) (b := 2) (by norm_num) hq
  have hu := Int.lt_zpow_succ_log_self (R := Rat) (b := 2) (by norm_num) q
  push_cast at hl hu
  have a1 : (2 : Rat) ^ e < (2 : Rat) ^ (Int.log 2 q + 1) := lt_of_le_of_lt h1 hu
  have a2 : (2 : Rat) ^ (Int.log 2 q) < (2 : Rat) ^ (e + 1) := lt_of_le_of_lt hl h2
  rw [zpow_lt_zpow_iff_right₀ (by norm_num : (1 : Rat) < 2)] at a1 a2
  omega

/-- Unfolding of roundBinary64 at a positive argument with known exponent. -/
theorem roundBinary64_pos_eval (q : Rat) (e : Int)
    (h1 : (2 : Rat) ^ e ≤ q) (h2 : q < (2 : Rat) ^ (e + 1)) :
    roundBinary64 q
      = (roundHalfEven (q * 2 ^ ((52 : Int) - e)) : Rat) * 2 ^ (e - (52 : Int)) := by
  have hq : 0 < q := lt_of_lt_of_le (zpow_pos (by norm_num) e) h1
  unfold roundBinary64 roundBinary64Pos
  rw [if_neg (ne_of_gt hq), if_pos hq, int_log2_unique q e h1 h2]

/-- Binary64 rounding of a positive rational has relative error at most
2 to the power -53. -/
theorem roundBinary64_pos_bounds (q : Rat) (hq : 0 < q) :
    q * (1 - (2 : Rat) ^ (-(53 : Int))) ≤ roundBinary64 q
    ∧ roundBinary64 q ≤ q * (1 + (2 : Rat) ^ (-(53 : Int))) := by
  have hl := Int.zpow_log_le_self (R := Rat) (b := 2) (by norm_num) hq
  push_cast at hl
  set e := Int.log 2 q with he
  have hb := roundHalfEven_bounds (q * 2 ^ ((52 : Int) - e))
  have hB : (0 : Rat) < 2 ^ (e - (52 : Int)) := zpow_pos (by norm_num) _
  have hAB : (2 : Rat) ^ ((52 : Int) - e) * 2 ^ (e - (52 : Int)) = 1 := by
    rw [← zpow_add₀ (by norm_num : (2 : Rat) ≠ 0)]
    norm_num
  have hhalf : (1 / 2 : Rat) * 2 ^ (e - (52 : Int)) = 2 ^ (e - (53 : Int)) := by
    rw [show (e - (53 : Int)) = (e - 52) + (-1) by ring,
        zpow_add₀ (by norm_num : (2 : Rat) ≠ 0)]
    norm_num
    ring
  have heps : (2 : Rat) ^ (e - (53 : Int)) ≤ q * 2 ^ (-(53 : Int)) := by
    rw [show (e - (53 : Int)) = e + (-53) by ring,
        zpow_add₀ (by norm_num : (2 : Rat) ≠ 0)]
    exact mul_le_mul_of_nonneg_right hl (le_of_lt (zpow_pos (by norm_num) _))
  unfold roundBinary64 roundBinary64Pos
  rw [if_neg (ne_of_gt hq), if_pos hq, ← he]
  constructor
  · have h2 := mul_le_mul_of_nonneg_right hb.1 (le_of_lt hB)
    have key : (q * 2 ^ ((52 : Int) - e) - 1 / 2) * 2 ^ (e - (52 : Int))
        = q - 2 ^ (e - (53 : Int)) := by
      rw [sub_mul, mul_assoc, hAB, mul_one, hhalf]
    rw [key] at h2
    nlinarith [heps]
  · have h2 := mul_le_mul_of_nonneg_right hb.2 (le_of_lt hB)
    have key : (q * 2 ^ ((52 : Int) - e) + 1 / 2) * 2 ^ (e - (52 : Int))
        = q + 2 ^ (e - (53 : Int)) := by
      rw [add_mul, mul_assoc, hAB, mul_one, hhalf]
    rw [key] at h2
    nlinarith [heps]

/-- Binary64 rounding fixes zero. -/
theorem roundBinary64_zero : roundBinary64 0 = 0 := by
  simp [roundBinary64]

/-- Math.round of zero is zero. -/
theorem jsMathRound_zero : jsMathRound 0 = 0 := by
  unfold jsMathRound
  rw [show ((0 : Rat) + 1 / 2) = 1 / 2 by norm_num, Int.floor_eq_iff] <;> norm_num

/-- Binary64 value of 23/40: the double printed 0.575, actually slightly
below 0.575. -/
theorem roundBinary64_ratio_b40 :
    roundBinary64 ((23 : Rat) / 40) = 2589569785738035 / 4503599627370496 := by
  rw [roundBinary64_pos_eval ((23 : Rat) / 40) (-1) (by norm_num) (by norm_num)]
  rw [show ((23 : Rat) / 40) * 2 ^ ((52 : Int) - (-1)) = 25895697857380352 / 5 by norm_num]
  have hf : Int.floor ((25895697857380352 : Rat) / 5) = 5179139571476070 := by
    rw [Int.floor_eq_iff] <;> norm_num
  unfold roundHalfEven
  rw [hf]
  norm_num

/-- Binary64 value of the product of the previous double with 100:
57.49999999999999289..., strictly below 57.5. -/
theorem roundBinary64_product_b40 :
    roundBinary64 ((2589569785738035 : Rat) / 4503599627370496 * 100)
      = 8092405580431359 / 140737488355328 := by
  rw [roundBinary64_pos_eval _ 5 (by norm_num) (by norm_num)]
  rw [show ((2589569785738035 : Rat) / 4503599627370496 * 100) * 2 ^ ((52 : Int) - 5)
      = 64739244643450875 / 8 by norm_num]
  have hf : Int.floor ((64739244643450875 : Rat) / 8) = 8092405580431359 := by
    rw [Int.floor_eq_iff] <;> norm_num
  unfold roundHalfEven
  rw [hf]
  norm_num

/-- Math.round of the double 57.49999999999999289... is 57. -/
theorem jsMathRound_value_b40 :
    jsMathRound ((8092405580431359 : Rat) / 140737488355328) = 57 := by
  unfold jsMathRound
  rw [Int.floor_eq_iff] <;> norm_num

/-- Binary64 value of 4/5: the double printed 0.8, slightly above 0.8. -/
theorem roundBinary64_ratio_b5 :
    roundBinary64 ((4 : Rat) / 5) = 3602879701896397 / 4503599627370496 := by
  rw [roundBinary64_pos_eval ((4 : Rat) / 5) (-1) (by norm_num) (by norm_num)]
  rw [show ((4 : Rat) / 5) * 2 ^ ((52 : Int) - (-1)) = 36028797018963968 / 5 by norm_num]
  have hf : Int.floor ((36028797018963968 : Rat) / 5) = 7205759403792793 := by
    rw [Int.floor_eq_iff] <;> norm_num
  unfold roundHalfEven
  rw [hf]
  norm_num

/-- Binary64 value of the product of the previous double with 100: the
rounding error of the product cancels the one of the quotient, giving
exactly 80. -/
theorem roundBinary64_product_b5 :
    roundBinary64 ((3602879701896397 : Rat) / 4503599627370496 * 100) = 80 := by
  rw [roundBinary64_pos_eval _ 6 (by norm_num) (by norm_num)]
  rw [show ((3602879701896397 : Rat) / 4503599627370496 * 100) * 2 ^ ((52 : Int) - 6)
      = 90071992547409925 / 16 by norm_num]
  have hf : Int.floor ((90071992547409925 : Rat) / 16) = 5629499534213120 := by
    rw [Int.floor_eq_iff] <;> norm_num
  unfold roundHalfEven
  rw [hf]
  norm_num

/-- Math.round of the double 80 is 80. -/
theorem jsMathRound_value_b5 : jsMathRound (80 : Rat) = 80 := by
  unfold jsMathRound
  rw [Int.floor_eq_iff] <;> norm_num

/-- The double evaluation of (x rounded) * 100 followed by Math.round stays
in [0, 100] for every exact ratio x in [0, 1]: the two relative errors of
at most 2 to the power -53 cannot push the value past 100.5. -/
theorem jsPercent_range (x : Rat) (hx0 : 0 ≤ x) (hx1 : x ≤ 1) :
    0 ≤ jsMathRound (jsMul (roundBinary64 x) 100)
    ∧ jsMathRound (jsMul (roundBinary64 x) 100) ≤ 100 := by
  rcases eq_or_lt_of_le hx0 with h0 | hxpos
  · rw [← h0, roundBinary64_zero]
    unfold jsMul
    rw [zero_mul, roundBinary64_zero, jsMathRound_zero]
    norm_num
  · have hεval : (2 : Rat) ^ (-(53 : Int)) = 1 / 9007199254740992 := by
      rw [zpow_neg, show ((53 : Int)) = ((53 : Nat) : Int) by norm_num, zpow_natCast]
      norm_num
    have hd := roundBinary64_pos_bounds x hxpos
    rw [hεval] at hd
    obtain ⟨hd1, hd2⟩ := hd
    have hd0 : 0 < roundBinary64 x := by nlinarith
    have hdu : roundBinary64 x ≤ 1 + 1 / 9007199254740992 := by nlinarith
    have hy0 : 0 < roundBinary64 x * 100 := by linarith
    have hy := roundBinary64_pos_bounds (roundBinary64 x * 100) hy0
    rw [hεval] at hy
    obtain ⟨hyb1, hyb2⟩ := hy
    have hyl : (0 : Rat) ≤ roundBinary64 (roundBinary64 x * 100) := by nlinarith
    have hyu : roundBinary64 (roundBinary64 x * 100) ≤ 1003 / 10 := by nlinarith
    unfold jsMul
    constructor
    · unfold jsMathRound
      apply Int.le_floor.mpr
      push_cast
      linarith
    · unfold jsMathRound
      have hlt : Int.floor (roundBinary64 (roundBinary64 x * 100) + 1 / 2) < 101 := by
        apply Int.floor_lt.mpr
        push_cast
        linarith
      omega

/-- C1: for every transaction the scorer's final score is the minimum of the
fixed-order additive rule sum (amount tier, new beneficiary, late night,
Debit) and 100; the derived late-night flag is set exactly for local hours
23 and 0 through 5; and the spec's end-to-end example (amount 20000, Debit,
new beneficiary, hour 2) scores exactly 100 with level High. -/
theorem scorer_score_is_clamped_rule_sum :
    (∀ t : Transaction, (calculateRiskScore t).score = min (specRuleSum t) 100)
    ∧ (∀ h : Fin 24, isLateNightOfHour h.val = decide (h.val = 23 ∨ h.val ≤ 5))
    ∧ (calculateRiskScore exampleHighTx).score = 100
    ∧ (calculateRiskScore exampleHighTx).level = "High" :=
  ⟨calc_score_eq, by decide, by decide, by decide⟩

/-- C2: the risk level is a pure function of the clamped score with
exhaustive, non-overlapping strict thresholds: above 65 High, above 30 and
at most 65 Medium, otherwise Low; scores exactly 65 and exactly 30 fall to
the lower tier. -/
theorem risk_level_thresholds :
    (∀ t : Transaction,
        (calculateRiskScore t).level = (levelAndColor (calculateRiskScore t).score).1)
    ∧ (∀ s : Int, (levelAndColor s).1 =
        if s > 65 then "High" else if 30 < s ∧ s ≤ 65 then "Medium" else "Low")
    ∧ (levelAndColor 65).1 = "Medium"
    ∧ (levelAndColor 30).1 = "Low" := by
  refine ⟨?_, ?_, by decide, by decide⟩
  · intro t
    rw [calc_level_eq, calc_score_eq]
  · intro s
    unfold levelAndColor
    split_ifs <;> first | rfl | omega

/-- C3: every score produced by the scorer lies between 0 and 100; the clamp
at 100 saturates. -/
theorem score_bounded_0_100 :
    ∀ t : Transaction,
      0 ≤ (calculateRiskScore t).score ∧ (calculateRiskScore t).score ≤ 100 := by
  intro t
  rw [calc_score_eq]
  exact ⟨le_min (specRuleSum_nonneg t) (by omega), min_le_right _ _⟩

/-- C4: boundary amounts fall to the lower bracket by strict comparison:
relative to the zero-contribution amount 0, amount 5000 adds nothing,
amounts 5001 and 15000 add 15, and amount 15001 adds 35, whatever the other
rule flags are. -/
theorem amount_rule_boundary_values :
    ∀ (b l : Bool) (d : String),
      (calculateRiskScore (txWithAmount 5000 b l d)).score
          = (calculateRiskScore (txWithAmount 0 b l d)).score
      ∧ (calculateRiskScore (txWithAmount 5001 b l d)).score
          = (calculateRiskScore (txWithAmount 0 b l d)).score + 15
      ∧ (calculateRiskScore (txWithAmount 15000 b l d)).score
          = (calculateRiskScore (txWithAmount 0 b l d)).score + 15
      ∧ (calculateRiskScore (txWithAmount 15001 b l d)).score
          = (calculateRiskScore (txWithAmount 0 b l d)).score + 35 := by
  intro b l d
  simp only [calc_score_eq]
  unfold specRuleSum specAmountContribution txWithAmount
  norm_num
  split_ifs <;> omega

/-- C5: the factors field renders the ordered list of labels of the rules
that fired, in rule evaluation order (amount, beneficiary, timing; the
Debit contribution has no label and the list is independent of the type
field), joined by a comma; when no labelled rule fired it is the sentinel
"Standard Behavior". -/
theorem factors_labels_order_and_sentinel :
    ∀ t : Transaction,
      (calculateRiskScore t).factors =
        (if specFiredLabels t = [] then "Standard Behavior"
         else String.intercalate ", " (specFiredLabels t))
      ∧ ∀ d : String, specFiredLabels { t with type := d } = specFiredLabels t := by
  intro t
  refine ⟨?_, fun d => rfl⟩
  rw [calc_factors_eq]
  cases hfl : specFiredLabels t <;> simp

/-- C6 counterexample: summarizing an empty batch does not yield a summary
with totalCount 0 and alert false; the component returns the null sentinel
(none) for the whole summary instead. -/
theorem summarize_empty_yields_no_summary :
    ¬ ∃ s : RiskSummary, summarize [] = some s ∧ s.totalCount = 0 ∧ s.alert = false := by
  rintro ⟨s, hs, -, -⟩
  simp [summarize] at hs

/-- C6 amended: summarizing an empty batch is not an error: the aggregator
returns the sentinel none for the whole summary (the component renders
nothing), so no counts are produced and no division is performed. -/
theorem summarize_empty_returns_none :
    summarize ([] : List AssessedTransaction) = none := rfl

/-- C7: whenever the aggregator produces a summary, its alert flag is true
exactly when the count of High-level assessments is positive. -/
theorem alert_iff_high_count_pos :
    ∀ (ts : List AssessedTransaction) (s : RiskSummary),
      summarize ts = some s → (s.alert = true ↔ 0 < s.highCount) := by
  intro ts s h
  unfold summarize at h
  split_ifs at h with hlen
  simp only [Option.some.injEq] at h
  subst h
  simp

/-- C7 witness: the one-element batch holding a High assessment. -/
theorem alert_iff_high_count_pos_witness :
    summaryOfOneHigh.alert = true ↔ 0 < summaryOfOneHigh.highCount :=
  alert_iff_high_count_pos [assessedHigh] summaryOfOneHigh (by
    have h1 : (calculateRiskScore exampleHighTx).level = "High" := by decide
    simp [summarize, assessedHigh, summaryOfOneHigh, h1, jsDiv, jsMul,
          roundBinary64_zero, jsMathRound_zero])

/-- C8 counterexample: for the batch of 40 assessments with 17 High, the
code's safePercentage is 57: the binary64 evaluation of ((40 - 17) / 40)
* 100 yields 57.49999999999999289..., which Math.round takes to 57, while
round half away from zero of the exact value 57.5 is 58.  The claimed
equality with the exact convention fails at this input. -/
theorem safe_percentage_not_round_half_away :
    summarize batchForty = some summaryOfBatchForty
    ∧ summaryOfBatchForty.safePercentage = 57
    ∧ roundHalfAwayFromZero
        (100 * (((summaryOfBatchForty.totalCount : Rat) - (summaryOfBatchForty.highCount : Rat))
          / (summaryOfBatchForty.totalCount : Rat))) = 58 := by
  refine ⟨?_, rfl, ?_⟩
  · have hlen : batchForty.length = 40 := by decide
    have hH : (batchForty.filter (fun t => t.risk.level = "High")).length = 17 := by decide
    have hM : (batchForty.filter (fun t => t.risk.level = "Medium")).length = 0 := by decide
    have e1 : jsDiv (23 : Rat) 40 = 2589569785738035 / 4503599627370496 := by
      unfold jsDiv
      exact roundBinary64_ratio_b40
    have e2 : jsMul ((2589569785738035 : Rat) / 4503599627370496) 100
        = 8092405580431359 / 140737488355328 := by
      unfold jsMul
      rw [roundBinary64_product_b40]
    unfold summarize
    simp only [hlen, hH, hM]
    norm_num [e1, e2, jsMathRound_value_b40, summaryOfBatchForty]
  · unfold roundHalfAwayFromZero
    rw [show 100 * (((summaryOfBatchForty.totalCount : Rat) - (summaryOfBatchForty.highCount : Rat))
          / (summaryOfBatchForty.totalCount : Rat)) = 115 / 2 by
        norm_num [summaryOfBatchForty]]
    rw [if_pos (by norm_num), show (115 / 2 : Rat) + 1 / 2 = 58 by norm_num]
    rw [Int.floor_eq_iff] <;> norm_num

/-- C8 amended: whenever the aggregator produces a summary (in particular
for every non-empty batch), its safePercentage is Math.round of the
binary64 evaluation of ((totalCount - highCount) / totalCount) * 100 —
which can differ by one from round half away from zero of the exact ratio,
as at totalCount 40 with highCount 17 where it yields 57 instead of 58 —
and it always lies between 0 and 100. -/
theorem safe_percentage_double_model_and_range :
    ∀ (ts : List AssessedTransaction) (s : RiskSummary),
      summarize ts = some s →
        s.safePercentage
            = jsMathRound (jsMul
                (jsDiv ((s.totalCount : Rat) - (s.highCount : Rat)) (s.totalCount : Rat)) 100)
        ∧ 0 ≤ s.safePercentage ∧ s.safePercentage ≤ 100 := by
  intro ts s h
  unfold summarize at h
  split_ifs at h with hlen
  simp only [Option.some.injEq] at h
  subst h
  dsimp only
  set L := ts.length with hLdef
  set H := (ts.filter (fun t => t.risk.level = "High")).length with hHdef
  have hHL : H ≤ L := List.length_filter_le _ _
  have hLpos : (0 : Rat) < (L : Rat) := by
    exact_mod_cast Nat.pos_of_ne_zero hlen
  have hx0 : (0 : Rat) ≤ ((L : Rat) - (H : Rat)) / (L : Rat) := by
    apply div_nonneg _ hLpos.le
    have : (H : Rat) ≤ (L : Rat) := by exact_mod_cast hHL
    linarith
  have hx1 : ((L : Rat) - (H : Rat)) / (L : Rat) ≤ 1 := by
    rw [div_le_one hLpos]
    have : (0 : Rat) ≤ (H : Rat) := Nat.cast_nonneg H
    linarith
  have hr := jsPercent_range (((L : Rat) - (H : Rat)) / (L : Rat)) hx0 hx1
  exact ⟨rfl, hr.1, hr.2⟩

/-- C8 amended witness: the spec's batch example with levels High, Low,
Medium, Low, Low, whose summary has safePercentage 80 (the binary64
evaluation of (4/5)*100 is exactly 80 here, which Math.round keeps). -/
theorem safe_percentage_double_model_and_range_witness :
    summaryOfBatchFive.safePercentage
        = jsMathRound (jsMul
            (jsDiv ((summaryOfBatchFive.totalCount : Rat) - (summaryOfBatchFive.highCount : Rat))
              (summaryOfBatchFive.totalCount : Rat)) 100)
    ∧ 0 ≤ summaryOfBatchFive.safePercentage ∧ summaryOfBatchFive.safePercentage ≤ 100 :=
  safe_percentage_double_model_and_range batchFive summaryOfBatchFive (by
    have h1 : (calculateRiskScore exampleHighTx).level = "High" := by decide
    have h2 : (calculateRiskScore oldBeneficiaryTx).level = "Medium" := by decide
    have h3 : (calculateRiskScore zeroAmountTx).level = "Low" := by decide
    have e1 : jsDiv (4 : Rat) 5 = 3602879701896397 / 4503599627370496 := by
      unfold jsDiv
      exact roundBinary64_ratio_b5
    have e2 : jsMul ((3602879701896397 : Rat) / 4503599627370496) 100 = 80 := by
      unfold jsMul
      rw [roundBinary64_product_b5]
    have hlen : batchFive.length = 5 := by decide
    have hH : (batchFive.filter (fun t => t.risk.level = "High")).length = 1 := by
      simp [batchFive, assessedHigh, assessedMedium, assessedLow, h1, h2, h3]
    have hM : (batchFive.filter (fun t => t.risk.level = "Medium")).length = 1 := by
      simp [batchFive, assessedHigh, assessedMedium, assessedLow, h1, h2, h3]
    unfold summarize
    simp only [hlen, hH, hM]
    norm_num [e1, e2, jsMathRound_value_b5, summaryOfBatchFive])

/-- C9 counterexample: a transaction with the out-of-domain amount -100 is
not rejected: the scorer returns the same ordinary assessment as for amount
0 (score 0, level Low, sentinel factors), silently treating the negative
amount as the no-contribution bracket. -/
theorem negative_amount_scored_not_rejected :
    calculateRiskScore negativeAmountTx = calculateRiskScore zeroAmountTx
    ∧ (calculateRiskScore negativeAmountTx).score = 0
    ∧ (calculateRiskScore negativeAmountTx).level = "Low"
    ∧ (calculateRiskScore negativeAmountTx).factors = "Standard Behavior" := by
  refine ⟨by decide, by decide, by decide, by decide⟩

/-- C9 amended: the scorer performs no input validation: a transaction with
a negative amount is scored exactly like the same record with amount 0
(silent defaulting, no InvalidTransaction error), and batch assessment
applies the total scorer record by record, so every record of a batch is
assessed. -/
theorem scorer_silently_defaults_never_rejects :
    (∀ t : Transaction, t.amount < 0 →
        calculateRiskScore t = calculateRiskScore { t with amount := 0 })
    ∧ (∀ ts : List Transaction, (processTransactions ts).length = ts.length) := by
  constructor
  · intro t h
    have h1 : ¬ (t.amount > 15000) := by omega
    have h2 : ¬ (t.amount > 5000) := by omega
    unfold calculateRiskScore scoreAndFactors
    simp [h1, h2]
  · intro ts
    simp [processTransactions]

/-- C9 amended witness: the concrete negative-amount record. -/
theorem scorer_silently_defaults_never_rejects_witness :
    calculateRiskScore negativeAmountTx
      = calculateRiskScore { negativeAmountTx with amount := 0 } :=
  scorer_silently_defaults_never_rejects.1 negativeAmountTx (by decide)

/-- C10: a transaction whose beneficiary is not new can never reach level
High: without the 40-point beneficiary rule the clamped score is at most
35 + 20 + 5 = 60, below the strict High threshold of 65. -/
theorem high_level_requires_new_beneficiary :
    ∀ t : Transaction, t.isNewBeneficiary = false →
      (calculateRiskScore t).score ≤ 60 ∧ (calculateRiskScore t).level ≠ "High" := by
  intro t h
  have hsum := specRuleSum_le_60 t h
  have hs : (calculateRiskScore t).score ≤ 60 := by
    rw [calc_score_eq]
    omega
  refine ⟨hs, ?_⟩
  rw [calc_level_eq]
  unfold levelAndColor
  have hlt : ¬ (min (specRuleSum t) 100 > 65) := by omega
  rw [if_neg hlt]
  split_ifs <;> decide

/-- C10 witness: maximal score without a new beneficiary (amount 20000,
Debit, late night) stays at 60, level Medium. -/
theorem high_level_requires_new_beneficiary_witness :
    (calculateRiskScore oldBeneficiaryTx).score ≤ 60
    ∧ (calculateRiskScore oldBeneficiaryTx).level ≠ "High" :=
  high_level_requires_new_beneficiary oldBeneficiaryTx rfl
